import Mathlib

/-!
# Verification of the `tracing-node` OpenTelemetry wrapper

A shallow embedding of the logic of `libs/index.mjs` of the
`saidsef/tracing-node` repository: the JavaScript string operations the
code relies on, the peer-service inference heuristic
(`getPeerServiceName`), the request-ignore predicate
(`ignoreIncomingRequestHook`), the outgoing-request attribute hook
(`applyCustomAttributesOnSpan`), the Redis statement serializer
(`dbStatementSerializer`), the conditional instrumentation list, and the
`setupTracing` / `stopTracing` lifecycle over the module-scoped provider
singleton.
-/

set_option maxHeartbeats 1000000
set_option maxRecDepth 8000

namespace TracingNode

/-! ## JavaScript string primitives

Strings are modelled as Lean `String` (a list of characters); the
JavaScript methods used by the source are given char-wise semantics.
-/

/-- JavaScript `s.toLowerCase()`, char-wise (the source only ever compares
against ASCII patterns). -/
def jsToLowerCase (s : String) : String :=
  ⟨s.data.map Char.toLower⟩

/-- JavaScript `s.includes(needle)`: `needle` occurs as a contiguous
substring of `s`. -/
def jsIncludes (s needle : String) : Bool :=
  decide (needle.data <:+: s.data)

/-- JavaScript `s.startsWith(p)`. -/
def jsStartsWith (s p : String) : Bool :=
  p.data.isPrefixOf s.data

/-- JavaScript `s.substring(a, b)` (for `a ≤ b`): characters `a` up to
excluding `b`. -/
def jsSubstring (s : String) (a b : Nat) : String :=
  ⟨(s.data.take b).drop a⟩

/-- JavaScript one-argument `s.substring(n)`: characters from `n` to the
end. -/
def jsSubstringFrom (s : String) (n : Nat) : String :=
  ⟨s.data.drop n⟩

/-- Split a character list at every occurrence of `sep`; the pieces do not
contain `sep`.  Splitting the empty list yields one empty piece, as in
JavaScript. -/
def splitCharAux (sep : Char) : List Char → List (List Char)
  | [] => [[]]
  | c :: rest =>
    match splitCharAux sep rest with
    | [] => if c = sep then [[], []] else [[c]]
    | h :: t => if c = sep then [] :: h :: t else (c :: h) :: t

/-- JavaScript `s.split(sep)` for a one-character separator (the source
only splits on `'.'`). -/
def jsSplit (s : String) (sep : Char) : List String :=
  (splitCharAux sep s.data).map fun piece => ⟨piece⟩

/-- JavaScript `arr.join(sep)`. -/
def jsJoin (l : List String) (sep : String) : String :=
  String.intercalate sep l

/-- JavaScript `a || b` where `a` is a possibly-absent string property:
the empty string and an absent value are falsy and fall through to `b`. -/
def jsOr (a : Option String) (b : String) : String :=
  match a with
  | some s => if s = "" then b else s
  | none => b

/-- JavaScript `a || b` on two possibly-absent strings (used for
environment-variable fallbacks); the result may itself be absent. -/
def jsOrOpt (a b : Option String) : Option String :=
  match a with
  | some s => if s = "" then b else some s
  | none => b

/-! ## The peer-service inference heuristic

`getPeerServiceName` is the helper defined inside `setupTracing`
(`libs/index.mjs`, HTTP-instrumentation version with the extract-hostname
helper), translated clause by clause.
-/

/-- The `getPeerServiceName` helper of `setupTracing`: pattern-matches a
hostname/URL pair to guess the peer service label for span attributes. -/
def getPeerServiceName (hostname url : String) : String :=
  let lowerHostname := jsToLowerCase hostname
  let lowerUrl := jsToLowerCase url
  if jsIncludes lowerHostname "elasticsearch" || jsIncludes lowerUrl "elasticsearch" ||
      jsIncludes lowerHostname ":9200" || jsIncludes lowerUrl ":9200" then
    "elasticsearch"
  else if jsIncludes lowerHostname "redis" || jsIncludes lowerUrl "redis" ||
      jsIncludes lowerHostname ":6379" || jsIncludes lowerUrl ":6379" then
    "redis"
  else if jsIncludes lowerHostname ".svc" then
    let parts := jsSplit lowerHostname '.'
    parts.headD ""
  else if jsStartsWith lowerHostname "www." then
    jsSubstringFrom lowerHostname 4
  else if hostname = "" then "unknown" else hostname

/-- The elasticsearch recognition pattern of the heuristic: substring
`elasticsearch` or port `:9200` in the hostname or the URL. -/
def matchesElasticsearch (hostname url : String) : Bool :=
  jsIncludes hostname "elasticsearch" || jsIncludes url "elasticsearch" ||
    jsIncludes hostname ":9200" || jsIncludes url ":9200"

/-- The redis recognition pattern of the heuristic: substring `redis` or
port `:6379` in the hostname or the URL. -/
def matchesRedis (hostname url : String) : Bool :=
  jsIncludes hostname "redis" || jsIncludes url "redis" ||
    jsIncludes hostname ":6379" || jsIncludes url ":6379"

/-! ## Request hooks -/

/-- The incoming-request shape seen by `applyCustomAttributesOnSpan`:
each of `url`, `uri`, `hostname`, `host` may be absent. -/
structure Request where
  url : Option String
  uri : Option String
  hostname : Option String
  host : Option String
deriving DecidableEq

/-- Span attributes are modelled as an association list.
`span.setAttribute(key, value)` prepends, so the most recent write for a
key is the one found first. -/
def setAttribute (span : List (String × String)) (key value : String) :
    List (String × String) :=
  (key, value) :: span

/-- Reading a span attribute: the value of the most recent write. -/
def getAttribute : List (String × String) → String → Option String
  | [], _ => none
  | (k, v) :: rest, key => if k = key then some v else getAttribute rest key

/-- The `applyCustomAttributesOnSpan` hook of the HTTP instrumentation
(`libs/index.mjs`): both detection blocks run in sequence, each setting
`peer.service` and `db.system` when its pattern matches.  Returns the
span's attributes after the hook. -/
def applyCustomAttributesOnSpan (span : List (String × String))
    (request : Request) : List (String × String) :=
  let url := jsOr request.url (jsOr request.uri "")
  let hostname := jsOr request.hostname (jsOr request.host "")
  let span :=
    if jsIncludes hostname "elasticsearch" || jsIncludes url "elasticsearch" ||
        jsIncludes hostname ":9200" || jsIncludes url ":9200" then
      setAttribute (setAttribute span "peer.service" "elasticsearch")
        "db.system" "elasticsearch"
    else span
  if jsIncludes hostname "redis" || jsIncludes url "redis" ||
      jsIncludes hostname ":6379" || jsIncludes url ":6379" then
    setAttribute (setAttribute span "peer.service" "redis") "db.system" "redis"
  else span

/-- The `ignoreIncomingRequestHook` of `setupTracing` (`libs/index.mjs`),
applied to `req.url`. -/
def ignoreIncomingRequestHook (url : String) : Bool :=
  jsStartsWith url "/metrics" || jsStartsWith url "/healthz"

/-- The per-argument truncation of the Redis `dbStatementSerializer`:
`String(arg)` is modelled as the argument itself (arguments are taken as
strings). -/
def truncateForStatement (arg : String) : String :=
  let str := arg
  if str.length > 100 then jsSubstring str 0 100 ++ "..." else str

/-- The `dbStatementSerializer` of the IORedis instrumentation
(`libs/index.mjs`). -/
def dbStatementSerializer (cmdName : String) (cmdArgs : List String) : String :=
  let args := cmdArgs.map fun arg =>
    let str := arg
    if str.length > 100 then jsSubstring str 0 100 ++ "..." else str
  cmdName ++ " " ++ jsJoin args " "

/-! ## The instrumentation list -/

/-- The instrumentation adapters `setupTracing` can instantiate. -/
inductive Instrumentation where
  | http
  | express
  | pino
  | connect
  | aws
  | ioredis
  | elasticsearch
  | fs
  | dns
deriving DecidableEq

/-- The `instrumentations` array built inside `setupTracing`
(`libs/index.mjs`): a fixed list, then `FsInstrumentation` pushed when
`enableFsInstrumentation`, then `DnsInstrumentation` pushed when
`enableDnsInstrumentation`. -/
def instrumentations (enableFsInstrumentation enableDnsInstrumentation : Bool) :
    List Instrumentation :=
  let base : List Instrumentation :=
    [.http, .express, .pino, .connect, .aws, .ioredis, .elasticsearch]
  let withFs := if enableFsInstrumentation then base ++ [.fs] else base
  if enableDnsInstrumentation then withFs ++ [.dns] else withFs

/-! ## The lifecycle: `setupTracing` and `stopTracing` -/

/-- The `options` argument of `setupTracing`; absent fields fall back to
environment variables (`hostname`, `serviceName`, `url`) or literals
(`concurrencyLimit = 10`, both feature flags `false`). -/
structure Options where
  hostname : Option String
  serviceName : Option String
  url : Option String
  concurrencyLimit : Option Nat
  enableFsInstrumentation : Bool
  enableDnsInstrumentation : Bool
deriving DecidableEq

/-- The environment variables `setupTracing` reads. -/
structure Env where
  CONTAINER_NAME : Option String
  HOSTNAME : Option String
  SERVICE_NAME : Option String
  ENDPOINT : Option String
deriving DecidableEq

/-- The tracer provider constructed by `setupTracing`: the resource
attributes, the exporter configuration of its batch span processor, the
instrumentation list registered against it, and whether `register` ran. -/
structure Provider where
  serviceName : Option String
  containerName : Option String
  exporterUrl : Option String
  concurrencyLimit : Nat
  timeoutMillis : Nat
  instrumentationList : List Instrumentation
  registered : Bool
deriving DecidableEq

/-- The tracer returned by `tracerProvider.getTracer(serviceName)`. -/
structure Tracer where
  name : Option String
deriving DecidableEq

/-- The module-scoped state: `let tracerProvider = null` at module scope. -/
structure TracingState where
  tracerProvider : Option Provider
deriving DecidableEq

/-- The configuration error named by the specification.  The source of
`setupTracing` contains no validation and no throw, so no constructor of
this type is ever produced; it appears in the return type only so that the
absence of a throwing path is expressible. -/
inductive ConfigurationError where
  | missingField : String → ConfigurationError
deriving DecidableEq

/-- `setupTracing(options)` of `libs/index.mjs`, over an explicit
environment and the module-scoped singleton state.  The source
destructures `options` with env-var defaults, builds the exporter options
(`parseInt(concurrencyLimit, 10)`, `timeoutMillis: 1000`), constructs the
provider, assigns it to the module-scoped `tracerProvider`, registers it
and the instrumentation list, and returns `tracerProvider.getTracer
(serviceName)`.  There is no validation: no input produces an error. -/
def setupTracing (options : Options) (env : Env) (_st : TracingState) :
    Except ConfigurationError (TracingState × Tracer) :=
  let hostname := options.hostname <|> jsOrOpt env.CONTAINER_NAME env.HOSTNAME
  let serviceName := options.serviceName <|> env.SERVICE_NAME
  let url := options.url <|> env.ENDPOINT
  let concurrencyLimit := options.concurrencyLimit.getD 10
  let tracerProvider : Provider :=
    ⟨serviceName, hostname, url, concurrencyLimit, 1000,
      instrumentations options.enableFsInstrumentation options.enableDnsInstrumentation,
      true⟩
  Except.ok (⟨some tracerProvider⟩, ⟨serviceName⟩)

/-- The outcome of `provider.shutdown()`, an external operation that may
reject. -/
inductive ShutdownFailure where
  | failure : String → ShutdownFailure
deriving DecidableEq

/-- The typed shutdown error named by the specification.  `stopTracing`
catches every rejection of `provider.shutdown()`, so no constructor is
ever produced by the code; the type appears in `StopOutcome.result` only
so that the claim about propagation is expressible. -/
inductive ShutdownError where
  | shutdownError : ShutdownFailure → ShutdownError
deriving DecidableEq

/-- The console levels `stopTracing` can log at. -/
inductive LogLevel where
  | info
  | warn
  | error
deriving DecidableEq

/-- What one `stopTracing()` call does: the singleton state afterwards,
whether `provider.shutdown()` was invoked, what was logged, and how the
returned promise settles. -/
structure StopOutcome where
  state : TracingState
  shutdownInvoked : Bool
  log : LogLevel
  result : Except ShutdownError Unit

/-- `stopTracing()` of `libs/index.mjs`.  If the singleton holds a
provider, it awaits `provider.shutdown()` (whose settlement is the
`shutdownResult` argument): on fulfilment it logs at info level, on
rejection it catches and logs at error level; in both cases the promise it
returns resolves and `tracerProvider` is never reassigned.  With no
provider it logs a warning. -/
def stopTracing (st : TracingState)
    (shutdownResult : Except ShutdownFailure Unit) : StopOutcome :=
  match st.tracerProvider with
  | some _ =>
    match shutdownResult with
    | Except.ok _ => ⟨st, true, LogLevel.info, Except.ok ()⟩
    | Except.error _ => ⟨st, true, LogLevel.error, Except.ok ()⟩
  | none => ⟨st, false, LogLevel.warn, Except.ok ()⟩

/-! ## Concrete instances used by the theorems -/

/-- A call with every option and every environment variable absent. -/
def emptyOptions : Options := ⟨none, none, none, none, false, false⟩

/-- An environment with no relevant variable set. -/
def emptyEnv : Env := ⟨none, none, none, none⟩

/-- The options of the spec's end-to-end scenario:
`setupTracing({serviceName: "checkout", collectorUrl: "http://localhost:4317"})`. -/
def checkoutOptions : Options :=
  ⟨none, some "checkout", some "http://localhost:4317", none, false, false⟩

/-- The provider `setupTracing checkoutOptions emptyEnv` constructs. -/
def checkoutProvider : Provider :=
  ⟨some "checkout", none, some "http://localhost:4317", 10, 1000,
    instrumentations false false, true⟩

/-! ## C1: configuration validation in `setupTracing` -/

/-- C1 (counterexample): with `serviceName` and the collector URL both
missing, `setupTracing` does not throw a configuration error — it returns
successfully and replaces the `none` singleton with a freshly constructed
provider (whose resource fields are all absent). -/
theorem setupTracing_missing_config_no_error :
    setupTracing emptyOptions emptyEnv ⟨none⟩ =
      Except.ok (⟨some ⟨none, none, none, 10, 1000, instrumentations false false, true⟩⟩,
        ⟨none⟩) ∧
    (some (⟨none, none, none, 10, 1000, instrumentations false false, true⟩ : Provider) ≠
      (none : Option Provider)) :=
  ⟨rfl, by simp⟩

/-- C1 (amended): `setupTracing` performs no validation at all: for every
options record, environment and prior singleton state — in particular when
`serviceName` or the collector URL is missing — it returns successfully
(never a `ConfigurationError`) and unconditionally overwrites the
process-wide provider singleton with the newly constructed provider. -/
theorem setupTracing_never_throws_and_always_sets_singleton
    (options : Options) (env : Env) (st : TracingState) :
    setupTracing options env st =
      Except.ok
        (⟨some ⟨options.serviceName <|> env.SERVICE_NAME,
            options.hostname <|> jsOrOpt env.CONTAINER_NAME env.HOSTNAME,
            options.url <|> env.ENDPOINT,
            options.concurrencyLimit.getD 10, 1000,
            instrumentations options.enableFsInstrumentation
              options.enableDnsInstrumentation, true⟩⟩,
          ⟨options.serviceName <|> env.SERVICE_NAME⟩) :=
  rfl

/-! ## C2: idempotence of repeated `stopTracing` -/

/-- C2 (counterexample): after the spec's `setupTracing({serviceName:
"checkout", ...})`, the first `stopTracing` leaves the singleton still
populated, and the second `stopTracing` call invokes `provider.shutdown()`
again — the singleton is never cleared and the second call is not a no-op. -/
theorem stopTracing_does_not_clear_singleton :
    setupTracing checkoutOptions emptyEnv ⟨none⟩ =
      Except.ok (⟨some checkoutProvider⟩, ⟨some "checkout"⟩) ∧
    (stopTracing ⟨some checkoutProvider⟩ (Except.ok ())).state.tracerProvider =
      some checkoutProvider ∧
    (stopTracing (stopTracing ⟨some checkoutProvider⟩ (Except.ok ())).state
      (Except.ok ())).shutdownInvoked = true :=
  ⟨rfl, rfl, rfl⟩

/-- C2 (amended): `stopTracing` never clears the singleton provider
reference, so after one `setupTracing` the second of two `stopTracing`
calls invokes the provider's shutdown again; both calls nevertheless
resolve without throwing, whatever the two shutdown outcomes, because
every shutdown rejection is caught and logged. -/
theorem stopTracing_twice_reinvokes_shutdown (st : TracingState)
    (r1 r2 : Except ShutdownFailure Unit) (h : st.tracerProvider ≠ none) :
    (stopTracing st r1).state = st ∧
    (stopTracing (stopTracing st r1).state r2).shutdownInvoked = true ∧
    (stopTracing st r1).result = Except.ok () ∧
    (stopTracing (stopTracing st r1).state r2).result = Except.ok () := by
  obtain ⟨tp⟩ := st
  match tp with
  | none => exact absurd rfl h
  | some p => cases r1 <;> cases r2 <;> exact ⟨rfl, rfl, rfl, rfl⟩

/-- C2 (witness): the amended statement evaluated after the concrete
`checkout` setup, with both shutdowns succeeding. -/
theorem stopTracing_twice_reinvokes_shutdown_witness :
    (stopTracing ⟨some checkoutProvider⟩ (Except.ok ())).state =
      (⟨some checkoutProvider⟩ : TracingState) ∧
    (stopTracing (stopTracing ⟨some checkoutProvider⟩ (Except.ok ())).state
      (Except.ok ())).shutdownInvoked = true ∧
    (stopTracing ⟨some checkoutProvider⟩ (Except.ok ())).result = Except.ok () ∧
    (stopTracing (stopTracing ⟨some checkoutProvider⟩ (Except.ok ())).state
      (Except.ok ())).result = Except.ok () :=
  stopTracing_twice_reinvokes_shutdown ⟨some checkoutProvider⟩
    (Except.ok ()) (Except.ok ()) (by simp)

/-! ## C3: propagation of shutdown failures -/

/-- C3: when the singleton holds a provider and `provider.shutdown()`
rejects, `stopTracing` catches the rejection, logs at error level, and the
promise it returns still resolves successfully — no `ShutdownError`
reaches the caller, contrary to the specified contract. -/
theorem stopTracing_swallows_shutdown_failure :
    (stopTracing ⟨some checkoutProvider⟩
      (Except.error (ShutdownFailure.failure "export timeout"))).result =
      Except.ok () ∧
    (stopTracing ⟨some checkoutProvider⟩
      (Except.error (ShutdownFailure.failure "export timeout"))).log =
      LogLevel.error ∧
    (stopTracing ⟨some checkoutProvider⟩
      (Except.error (ShutdownFailure.failure "export timeout"))).state.tracerProvider =
      some checkoutProvider :=
  ⟨rfl, rfl, rfl⟩

/-! ## C8: `stopTracing` with no provider -/

/-- C8: calling `stopTracing` in any state whose singleton is empty is a
successful no-op: it does not invoke any shutdown, logs a warning, leaves
the state unchanged, and the returned promise resolves. -/
theorem stopTracing_no_provider_warns (st : TracingState)
    (r : Except ShutdownFailure Unit) (h : st.tracerProvider = none) :
    stopTracing st r = ⟨st, false, LogLevel.warn, Except.ok ()⟩ := by
  obtain ⟨tp⟩ := st
  cases tp with
  | none => rfl
  | some p => simp at h

/-- C8 (witness): `stopTracing` on the initial state. -/
theorem stopTracing_no_provider_warns_witness :
    stopTracing ⟨none⟩ (Except.ok ()) =
      ⟨⟨none⟩, false, LogLevel.warn, Except.ok ()⟩ :=
  stopTracing_no_provider_warns ⟨none⟩ (Except.ok ()) rfl

/-! ## C7: the instrumentation list -/

/-- C7: for every combination of the two flags, the list built by
`setupTracing` contains the HTTP, Express, Pino, AWS and Redis adapters,
contains the filesystem adapter exactly when `enableFsInstrumentation`,
and contains the DNS adapter exactly when `enableDnsInstrumentation`. -/
theorem instrumentations_fixed_and_optional
    (enableFsInstrumentation enableDnsInstrumentation : Bool) :
    Instrumentation.http ∈ instrumentations enableFsInstrumentation enableDnsInstrumentation ∧
    Instrumentation.express ∈ instrumentations enableFsInstrumentation enableDnsInstrumentation ∧
    Instrumentation.pino ∈ instrumentations enableFsInstrumentation enableDnsInstrumentation ∧
    Instrumentation.aws ∈ instrumentations enableFsInstrumentation enableDnsInstrumentation ∧
    Instrumentation.ioredis ∈ instrumentations enableFsInstrumentation enableDnsInstrumentation ∧
    (Instrumentation.fs ∈ instrumentations enableFsInstrumentation enableDnsInstrumentation ↔
      enableFsInstrumentation = true) ∧
    (Instrumentation.dns ∈ instrumentations enableFsInstrumentation enableDnsInstrumentation ↔
      enableDnsInstrumentation = true) := by
  cases enableFsInstrumentation <;> cases enableDnsInstrumentation <;> decide

/-! ## C4: the four peer-service equations -/

/-- C4: the four input/output equations of the peer-service inference
function hold as the spec states them. -/
theorem getPeerServiceName_equations :
    getPeerServiceName "search.elasticsearch.svc.cluster.local" "" = "elasticsearch" ∧
    getPeerServiceName "cache:6379" "" = "redis" ∧
    getPeerServiceName "www.example.com" "" = "example.com" ∧
    getPeerServiceName "payments.prod.svc" "" = "payments" := by
  refine ⟨?_, ?_, ?_, ?_⟩ <;> decide

/-! ## C5: the fallback for unmatched hostnames -/

/-- C5 (counterexample): the empty hostname matches no recognition
pattern, yet `getPeerServiceName` returns the literal `"unknown"` rather
than the raw (empty) hostname. -/
theorem getPeerServiceName_empty_hostname :
    getPeerServiceName "" "" = "unknown" ∧ ("unknown" : String) ≠ "" := by
  refine ⟨by decide, by decide⟩

/-- C5 (amended): for every hostname/URL pair matching none of the
recognition patterns (after the lowercasing the code performs), the
heuristic falls back to the raw hostname when it is non-empty, and to the
literal `"unknown"` for the empty hostname. -/
theorem getPeerServiceName_unmatched_fallback (hostname url : String)
    (h1 : jsIncludes (jsToLowerCase hostname) "elasticsearch" = false)
    (h2 : jsIncludes (jsToLowerCase url) "elasticsearch" = false)
    (h3 : jsIncludes (jsToLowerCase hostname) ":9200" = false)
    (h4 : jsIncludes (jsToLowerCase url) ":9200" = false)
    (h5 : jsIncludes (jsToLowerCase hostname) "redis" = false)
    (h6 : jsIncludes (jsToLowerCase url) "redis" = false)
    (h7 : jsIncludes (jsToLowerCase hostname) ":6379" = false)
    (h8 : jsIncludes (jsToLowerCase url) ":6379" = false)
    (h9 : jsIncludes (jsToLowerCase hostname) ".svc" = false)
    (h10 : jsStartsWith (jsToLowerCase hostname) "www." = false) :
    getPeerServiceName hostname url =
      if hostname = "" then "unknown" else hostname := by
  unfold getPeerServiceName
  simp [h1, h2, h3, h4, h5, h6, h7, h8, h9, h10]

/-- C5 (witness): the unmatched host `db.internal` falls back to itself. -/
theorem getPeerServiceName_unmatched_fallback_witness :
    getPeerServiceName "db.internal" "" =
      if ("db.internal" : String) = "" then "unknown" else "db.internal" :=
  getPeerServiceName_unmatched_fallback "db.internal" ""
    (by decide) (by decide) (by decide) (by decide) (by decide)
    (by decide) (by decide) (by decide) (by decide) (by decide)

/-! ## Helper lemmas on the JavaScript string layer -/

/-- `startsWith` agrees with the existence of a completing suffix. -/
theorem jsStartsWith_iff (s p : String) :
    jsStartsWith s p = true ↔ ∃ r : String, s = p ++ r := by
  unfold jsStartsWith
  rw [ List.isPrefixOf_iff_prefix]
  constructor
  · rintro ⟨t, ht⟩
    refine ⟨⟨t⟩, String.ext ?_⟩
    rw [String.data_append]
    exact ht.symm
  · rintro ⟨r, rfl⟩
    exact ⟨r.data, by simp⟩

/-- `includes` agrees with list-infix containment. -/
theorem jsIncludes_iff (s needle : String) :
    jsIncludes s needle = true ↔ needle.data <:+: s.data := by
  unfold jsIncludes
  exact decide_eq_true_iff

theorem jsToLowerCase_data (s : String) :
    (jsToLowerCase s).data = s.data.map Char.toLower := rfl

/-- Lowercasing the haystack preserves containment of a needle that is
itself fixed by lowercasing. -/
theorem jsIncludes_toLowerCase_mono (s needle : String)
    (hfix : jsToLowerCase needle = needle) (h : jsIncludes s needle = true) :
    jsIncludes (jsToLowerCase s) needle = true := by
  rw [jsIncludes_iff] at h ⊢
  have hmap := h.map Char.toLower
  have hdata := congrArg String.data hfix
  rw [jsToLowerCase_data] at hdata
  rw [jsToLowerCase_data]
  rwa [hdata] at hmap

/-! ## C6: the incoming-request ignore predicate -/

/-- C6: the ignore predicate holds exactly for URLs that begin with
`/metrics` or `/healthz`; in particular it accepts `/metrics`, `/healthz`
and the sub-path `/healthz/live`, and rejects `/api/health`. -/
theorem ignoreIncomingRequestHook_spec :
    (∀ url : String, ignoreIncomingRequestHook url = true ↔
      ((∃ rest, url = "/metrics" ++ rest) ∨ (∃ rest, url = "/healthz" ++ rest))) ∧
    ignoreIncomingRequestHook "/metrics" = true ∧
    ignoreIncomingRequestHook "/healthz" = true ∧
    ignoreIncomingRequestHook "/healthz/live" = true ∧
    ignoreIncomingRequestHook "/api/health" = false := by
  refine ⟨fun url => ?_, by decide, by decide, by decide, by decide⟩
  unfold ignoreIncomingRequestHook
  rw [Bool.or_eq_true, jsStartsWith_iff, jsStartsWith_iff]

/-- C6 (witness): the characterization applied at a concrete sub-path. -/
theorem ignoreIncomingRequestHook_spec_witness :
    ignoreIncomingRequestHook "/healthz/ready" = true :=
  (ignoreIncomingRequestHook_spec.1 "/healthz/ready").mpr
    (Or.inr ⟨"/ready", by decide⟩)

/-! ## C9: precedence between the elasticsearch and redis patterns -/

/-- C9 (counterexample): the hostname `redis:9200` matches both patterns,
and the `applyCustomAttributesOnSpan` hook of `setupTracing` leaves
`peer.service = "redis"` on the span, not `"elasticsearch"`: both `if`
blocks run, and the redis write, being last, wins. -/
theorem applyCustomAttributesOnSpan_overlap_redis_wins :
    matchesElasticsearch "redis:9200" "" = true ∧
    matchesRedis "redis:9200" "" = true ∧
    getAttribute
      (applyCustomAttributesOnSpan [] ⟨none, none, some "redis:9200", none⟩)
      "peer.service" = some "redis" ∧
    (some "redis" : Option String) ≠ some "elasticsearch" := by
  refine ⟨by decide, by decide, by decide, by decide⟩

/-- C9 (amended): on a hostname/URL pair matching both the elasticsearch
and the redis pattern, the two code paths disagree: `getPeerServiceName`
resolves the overlap first-match-wins and returns `"elasticsearch"`, while
`applyCustomAttributesOnSpan` executes both detection blocks so that the
later redis write leaves `peer.service = "redis"` on the span. -/
theorem peer_service_overlap_precedence :
    (∀ hostname url : String,
      matchesElasticsearch hostname url = true →
      matchesRedis hostname url = true →
      getPeerServiceName hostname url = "elasticsearch") ∧
    (∀ (span : List (String × String)) (request : Request),
      matchesElasticsearch (jsOr request.hostname (jsOr request.host ""))
        (jsOr request.url (jsOr request.uri "")) = true →
      matchesRedis (jsOr request.hostname (jsOr request.host ""))
        (jsOr request.url (jsOr request.uri "")) = true →
      getAttribute (applyCustomAttributesOnSpan span request) "peer.service" =
        some "redis") := by
  constructor
  · intro hostname url he _hr
    have he' : matchesElasticsearch (jsToLowerCase hostname) (jsToLowerCase url) = true := by
      unfold matchesElasticsearch at he ⊢
      simp only [Bool.or_eq_true] at he ⊢
      rcases he with ((h | h) | h) | h
      · exact Or.inl (Or.inl (Or.inl
          (jsIncludes_toLowerCase_mono hostname "elasticsearch" (by decide) h)))
      · exact Or.inl (Or.inl (Or.inr
          (jsIncludes_toLowerCase_mono url "elasticsearch" (by decide) h)))
      · exact Or.inl (Or.inr (jsIncludes_toLowerCase_mono hostname ":9200" (by decide) h))
      · exact Or.inr (jsIncludes_toLowerCase_mono url ":9200" (by decide) h)
    unfold matchesElasticsearch at he'
    unfold getPeerServiceName
    simp [he']
  · intro span request he hr
    unfold matchesElasticsearch at he
    unfold matchesRedis at hr
    unfold applyCustomAttributesOnSpan
    simp only [he, hr, if_true]
    rfl

/-- C9 (witness): both halves of the precedence statement evaluated on the
both-matching hostname `redis:9200`. -/
theorem peer_service_overlap_precedence_witness :
    getPeerServiceName "redis:9200" "" = "elasticsearch" ∧
    getAttribute
      (applyCustomAttributesOnSpan [] ⟨none, none, some "redis:9200", none⟩)
      "peer.service" = some "redis" :=
  ⟨peer_service_overlap_precedence.1 "redis:9200" "" (by decide) (by decide),
   peer_service_overlap_precedence.2 [] ⟨none, none, some "redis:9200", none⟩
     (by decide) (by decide)⟩

/-! ## C10: the Redis statement serializer -/

/-- C10: the serializer emits the command name followed by the arguments,
each truncated: an argument longer than 100 characters contributes exactly
its first 100 characters followed by `...` (103 characters total), a
shorter argument passes through unchanged, and every serialized argument
is at most 103 characters long. -/
theorem dbStatementSerializer_truncation :
    (∀ cmdName cmdArgs, dbStatementSerializer cmdName cmdArgs =
      cmdName ++ " " ++ jsJoin (cmdArgs.map truncateForStatement) " ") ∧
    (∀ arg : String,
      (arg.length > 100 →
        truncateForStatement arg = String.mk (arg.data.take 100) ++ "..." ∧
        (truncateForStatement arg).length = 103) ∧
      (arg.length ≤ 100 → truncateForStatement arg = arg) ∧
      (truncateForStatement arg).length ≤ 103) := by
  refine ⟨fun cmdName cmdArgs => rfl, fun arg => ?_⟩
  by_cases h : arg.length > 100
  · have heq : truncateForStatement arg = String.mk (arg.data.take 100) ++ "..." := by
      unfold truncateForStatement
      rw [if_pos h]
      simp [jsSubstring]
    have hd : 100 < arg.data.length := h
    have hlen : (truncateForStatement arg).length = 103 := by
      rw [heq, String.length_append]
      have htake : (String.mk (arg.data.take 100)).length = 100 := by
        rw [String.length_mk, List.length_take]
        omega
      rw [htake]
      decide
    exact ⟨fun _ => ⟨heq, hlen⟩, fun hle => absurd h (by omega), by omega⟩
  · have heq : truncateForStatement arg = arg := by
      unfold truncateForStatement
      rw [if_neg h]
    exact ⟨fun hgt => absurd hgt h, fun _ => heq, by rw [heq]; omega⟩

/-- C10 (witness): a 150-character argument is cut to its first 100
characters plus `...`, 103 characters in all. -/
theorem dbStatementSerializer_truncation_witness :
    truncateForStatement ⟨List.replicate 150 'a'⟩ =
      String.mk ((⟨List.replicate 150 'a'⟩ : String).data.take 100) ++ "..." ∧
    (truncateForStatement ⟨List.replicate 150 'a'⟩).length = 103 :=
  (dbStatementSerializer_truncation.2 ⟨List.replicate 150 'a'⟩).1 (by decide)

end TracingNode
